import Mathlib

set_option maxRecDepth 10000

/-!
Verification of the Heartflow proactive-reply plugin (`main.py`).

The development shallowly embeds the decision core of the plugin:

* the judgment engine (`judge_with_tiny_model`): score computation,
  weight normalization, retry loop, failure paths;
* the per-chat energy tracker (`_get_chat_state`, `_update_active_state`,
  `_update_passive_state`);
* the per-(chat, sender) debounce coordinator (`_enter_silent_wait`,
  `_wait_and_reply`, `_combine_user_messages`);
* the persona-summary cache (`_get_or_create_summarized_system_prompt`,
  `_summarize_system_prompt`).

Python floats are embedded as exact rationals (`ℚ`); Python strings either
as Lean `String` (identifiers, diagnostic messages) or as `List Char`
(texts on which the code performs `str.replace` / `str.strip` /
`len`, which are re-implemented below with Python semantics).  Python
dicts are embedded as insertion-ordered association lists.  Fallible
operations (a `ZeroDivisionError`, an exception raised by a provider
call) are embedded with `Option` / `Except`.
-/

namespace Heartflow

/-- The five judgment dimension weights (`self.weights`, main.py lines 86-92).
Python float values are embedded as exact rationals. -/
structure Weights where
  relevance : ℚ
  willingness : ℚ
  social : ℚ
  timing : ℚ
  continuity : ℚ
deriving DecidableEq, Repr

/-- Sum of the five weights (`weight_sum = sum(self.weights.values())`,
main.py line 94). -/
def weightSum (w : Weights) : ℚ :=
  w.relevance + w.willingness + w.social + w.timing + w.continuity

/-- The default weight configuration (main.py lines 87-91). -/
def defaultWeights : Weights :=
  { relevance := 0.25, willingness := 0.2, social := 0.2, timing := 0.15, continuity := 0.2 }

/-- Weight normalization performed at construction time (main.py lines 94-98):
if `abs(weight_sum - 1.0) > 1e-6` every weight is divided by the raw sum,
otherwise the raw weights are kept.  In Python, dividing by a zero sum
raises `ZeroDivisionError`, aborting `__init__`; that outcome is embedded
as `none`. -/
def normalizeWeights (w : Weights) : Option Weights :=
  let s := weightSum w
  if |s - 1| ≤ 1e-6 then some w
  else if s = 0 then none
  else some
    { relevance := w.relevance / s
      willingness := w.willingness / s
      social := w.social / s
      timing := w.timing / s
      continuity := w.continuity / s }

/-- Judgment result dataclass (`JudgeResult`, main.py lines 13-29), with the
dataclass defaults.  `related_messages` is always `[]` in the embedded
code paths (main.py line 374). -/
structure JudgeResult where
  relevance : ℚ := 0
  willingness : ℚ := 0
  social : ℚ := 0
  timing : ℚ := 0
  continuity : ℚ := 0
  reasoning : String := ""
  should_reply : Bool := false
  confidence : ℚ := 0
  overall_score : ℚ := 0
  related_messages : List ℕ := []
deriving DecidableEq, Repr

/-- A `JudgeResult(should_reply=False, reasoning=r)` failure value
(main.py lines 206, 213, 216, 384, 395). -/
def failResult (r : String) : JudgeResult := { reasoning := r }

/-- A successfully `json.loads`-parsed judge response.  Each dimension field
is `none` when the key is absent from the parsed JSON object
(`judge_data.get(dim, 0)` then defaults it to `0`, main.py lines 344-348);
`reasoning` likewise models `judge_data.get("reasoning", "")`. -/
structure ParsedJudge where
  relevance : Option ℚ := none
  willingness : Option ℚ := none
  social : Option ℚ := none
  timing : Option ℚ := none
  continuity : Option ℚ := none
  reasoning : Option String := none
deriving DecidableEq, Repr

/-- `judge_data.get(dim, 0)` (main.py lines 344-348). -/
def dimScore (o : Option ℚ) : ℚ := o.getD 0

/-- The weighted overall score (main.py lines 351-357). -/
def overallScore (w : Weights) (d : ParsedJudge) : ℚ :=
  (dimScore d.relevance * w.relevance +
   dimScore d.willingness * w.willingness +
   dimScore d.social * w.social +
   dimScore d.timing * w.timing +
   dimScore d.continuity * w.continuity) / 10

/-- The `JudgeResult` built from a successfully parsed judge response
(main.py lines 341-375): scores default to 0 when missing, the overall
score is the weighted sum divided by 10, `should_reply` is
`overall_score >= reply_threshold`, `confidence` equals the overall
score, and `reasoning` is kept only when `judge_include_reasoning`. -/
def computeJudgeResult (w : Weights) (threshold : ℚ) (includeReasoning : Bool)
    (d : ParsedJudge) : JudgeResult :=
  let s := overallScore w d
  { relevance := dimScore d.relevance
    willingness := dimScore d.willingness
    social := dimScore d.social
    timing := dimScore d.timing
    continuity := dimScore d.continuity
    reasoning := if includeReasoning then d.reasoning.getD "" else ""
    should_reply := decide (threshold ≤ s)
    confidence := s
    overall_score := s
    related_messages := [] }

/-- All five weights are nonnegative. -/
def WeightsNonneg (w : Weights) : Prop :=
  0 ≤ w.relevance ∧ 0 ≤ w.willingness ∧ 0 ≤ w.social ∧ 0 ≤ w.timing ∧ 0 ≤ w.continuity

/-- All five extracted dimension scores lie in `[0, 10]`. -/
def ScoresInRange (d : ParsedJudge) : Prop :=
  (0 ≤ dimScore d.relevance ∧ dimScore d.relevance ≤ 10) ∧
  (0 ≤ dimScore d.willingness ∧ dimScore d.willingness ≤ 10) ∧
  (0 ≤ dimScore d.social ∧ dimScore d.social ≤ 10) ∧
  (0 ≤ dimScore d.timing ∧ dimScore d.timing ≤ 10) ∧
  (0 ≤ dimScore d.continuity ∧ dimScore d.continuity ≤ 10)

end Heartflow

namespace Heartflow

/-- C1: for every successfully parsed judge response whose five dimension
scores (each defaulting to 0 when the field is missing) lie in `[0, 10]`,
and for a normalized weight vector (nonnegative entries summing to 1),
the `JudgeResult` built by `judge_with_tiny_model` satisfies
`overall_score = (Σ score_d · weight_d) / 10`, `overall_score ∈ [0, 1]`,
`should_reply` iff `overall_score ≥ reply_threshold`, `confidence =
overall_score`, and a missing dimension field yields score 0. -/
theorem judge_result_score_spec (w : Weights) (threshold : ℚ) (includeReasoning : Bool)
    (d : ParsedJudge) (hw : WeightsNonneg w) (hsum : weightSum w = 1)
    (hd : ScoresInRange d) :
    (computeJudgeResult w threshold includeReasoning d).overall_score =
      (dimScore d.relevance * w.relevance + dimScore d.willingness * w.willingness +
       dimScore d.social * w.social + dimScore d.timing * w.timing +
       dimScore d.continuity * w.continuity) / 10 ∧
    0 ≤ (computeJudgeResult w threshold includeReasoning d).overall_score ∧
    (computeJudgeResult w threshold includeReasoning d).overall_score ≤ 1 ∧
    ((computeJudgeResult w threshold includeReasoning d).should_reply = true ↔
      threshold ≤ (computeJudgeResult w threshold includeReasoning d).overall_score) ∧
    (computeJudgeResult w threshold includeReasoning d).confidence =
      (computeJudgeResult w threshold includeReasoning d).overall_score ∧
    (d.relevance = none → (computeJudgeResult w threshold includeReasoning d).relevance = 0) ∧
    (d.willingness = none → (computeJudgeResult w threshold includeReasoning d).willingness = 0) ∧
    (d.social = none → (computeJudgeResult w threshold includeReasoning d).social = 0) ∧
    (d.timing = none → (computeJudgeResult w threshold includeReasoning d).timing = 0) ∧
    (d.continuity = none → (computeJudgeResult w threshold includeReasoning d).continuity = 0) := by
  obtain ⟨hw1, hw2, hw3, hw4, hw5⟩ := hw
  obtain ⟨⟨hd1, hd1'⟩, ⟨hd2, hd2'⟩, ⟨hd3, hd3'⟩, ⟨hd4, hd4'⟩, ⟨hd5, hd5'⟩⟩ := hd
  refine ⟨rfl, ?_, ?_, ?_, rfl, ?_, ?_, ?_, ?_, ?_⟩
  · simp only [computeJudgeResult, overallScore]
    positivity
  · simp only [computeJudgeResult, overallScore]
    rw [div_le_one (by norm_num)]
    have h1 : dimScore d.relevance * w.relevance ≤ 10 * w.relevance :=
      mul_le_mul_of_nonneg_right hd1' hw1
    have h2 : dimScore d.willingness * w.willingness ≤ 10 * w.willingness :=
      mul_le_mul_of_nonneg_right hd2' hw2
    have h3 : dimScore d.social * w.social ≤ 10 * w.social :=
      mul_le_mul_of_nonneg_right hd3' hw3
    have h4 : dimScore d.timing * w.timing ≤ 10 * w.timing :=
      mul_le_mul_of_nonneg_right hd4' hw4
    have h5 : dimScore d.continuity * w.continuity ≤ 10 * w.continuity :=
      mul_le_mul_of_nonneg_right hd5' hw5
    have hs : w.relevance + w.willingness + w.social + w.timing + w.continuity = 1 := hsum
    linarith
  · simp [computeJudgeResult]
  all_goals intro h
  all_goals simp [computeJudgeResult, dimScore, h]

/-- Witness for `judge_result_score_spec`: the default weight configuration,
threshold 0.6, and a parsed response with scores 8/7/6/5 and a missing
`continuity` field. -/
theorem judge_result_score_spec_witness :
    (computeJudgeResult defaultWeights 0.6 true
      { relevance := some 8, willingness := some 7, social := some 6,
        timing := some 5, continuity := none }).confidence =
    (computeJudgeResult defaultWeights 0.6 true
      { relevance := some 8, willingness := some 7, social := some 6,
        timing := some 5, continuity := none }).overall_score ∧
    0 ≤ (computeJudgeResult defaultWeights 0.6 true
      { relevance := some 8, willingness := some 7, social := some 6,
        timing := some 5, continuity := none }).overall_score := by
  have h := judge_result_score_spec defaultWeights 0.6 true
    { relevance := some 8, willingness := some 7, social := some 6,
      timing := some 5, continuity := none }
    (by refine ⟨?_, ?_, ?_, ?_, ?_⟩ <;> norm_num [defaultWeights])
    (by norm_num [weightSum, defaultWeights])
    (by refine ⟨⟨?_, ?_⟩, ⟨?_, ?_⟩, ⟨?_, ?_⟩, ⟨?_, ?_⟩, ⟨?_, ?_⟩⟩ <;> norm_num [dimScore])
  exact ⟨h.2.2.2.2.1, h.2.1⟩

/-- C2 counterexample: with all five raw weights equal to zero the sum is 0
and deviates from 1 by more than `1e-6`, so `__init__` divides every
weight by 0, which raises `ZeroDivisionError` in Python: construction
does not terminate normally (embedded as `normalizeWeights = none`). -/
theorem weights_all_zero_raises :
    normalizeWeights
      { relevance := 0, willingness := 0, social := 0, timing := 0, continuity := 0 } = none := by
  norm_num [normalizeWeights, weightSum]

/-- C2 (amended): for every configuration of the five raw dimension weights
that is nonnegative and not all zero, construction terminates normally
and the stored weights sum to 1 within `1e-6`; when the raw sum is
already within `1e-6` of 1 the raw weights are kept unchanged, otherwise
every weight is divided by the raw sum (making the sum exactly 1). -/
theorem weights_normalization_amended (w : Weights) (hw : WeightsNonneg w)
    (hnz : ¬(w.relevance = 0 ∧ w.willingness = 0 ∧ w.social = 0 ∧ w.timing = 0 ∧
             w.continuity = 0)) :
    ∃ w', normalizeWeights w = some w' ∧ |weightSum w' - 1| ≤ 1e-6 ∧
      (|weightSum w - 1| ≤ 1e-6 → w' = w) ∧
      (¬(|weightSum w - 1| ≤ 1e-6) →
        w' = { relevance := w.relevance / weightSum w,
               willingness := w.willingness / weightSum w,
               social := w.social / weightSum w,
               timing := w.timing / weightSum w,
               continuity := w.continuity / weightSum w } ∧ weightSum w' = 1) := by
  obtain ⟨hw1, hw2, hw3, hw4, hw5⟩ := hw
  have hpos : 0 < weightSum w := by
    rcases lt_or_eq_of_le hw1 with h1 | h1
    · unfold weightSum; linarith
    rcases lt_or_eq_of_le hw2 with h2 | h2
    · unfold weightSum; linarith
    rcases lt_or_eq_of_le hw3 with h3 | h3
    · unfold weightSum; linarith
    rcases lt_or_eq_of_le hw4 with h4 | h4
    · unfold weightSum; linarith
    rcases lt_or_eq_of_le hw5 with h5 | h5
    · unfold weightSum; linarith
    exact absurd ⟨h1.symm, h2.symm, h3.symm, h4.symm, h5.symm⟩ hnz
  have hne : weightSum w ≠ 0 := ne_of_gt hpos
  by_cases hcl : |weightSum w - 1| ≤ 1e-6
  · refine ⟨w, ?_, hcl, fun _ => rfl, fun hc => absurd hcl hc⟩
    simp [normalizeWeights, hcl]
  · have hsum1 : weightSum
        { relevance := w.relevance / weightSum w,
          willingness := w.willingness / weightSum w,
          social := w.social / weightSum w,
          timing := w.timing / weightSum w,
          continuity := w.continuity / weightSum w } = 1 := by
      simp only [weightSum] at hne ⊢
      field_simp
    refine ⟨_, ?_, ?_, fun hc => absurd hc hcl, fun _ => ⟨rfl, hsum1⟩⟩
    · simp [normalizeWeights, hcl, hne]
    · rw [hsum1]; norm_num

/-- Witness for `weights_normalization_amended`: the all-ones raw
configuration is normalized to a vector summing to exactly 1. -/
theorem weights_normalization_amended_witness :
    ∃ w', normalizeWeights
        { relevance := 1, willingness := 1, social := 1, timing := 1, continuity := 1 } =
          some w' ∧ |weightSum w' - 1| ≤ 1e-6 := by
  obtain ⟨w', h1, h2, -, -⟩ := weights_normalization_amended
    { relevance := 1, willingness := 1, social := 1, timing := 1, continuity := 1 }
    (by refine ⟨?_, ?_, ?_, ?_, ?_⟩ <;> norm_num)
    (by norm_num)
  exact ⟨w', h1, h2⟩

/-- Per-chat state dataclass (`ChatState`, main.py lines 32-39), with the
dataclass defaults.  `last_reply_time` (an epoch timestamp) is embedded
as a rational, `last_reset_date` (an ISO calendar date string) as a
`String`. -/
structure ChatState where
  energy : ℚ := 1
  last_reply_time : ℚ := 0
  last_reset_date : String := ""
  total_messages : ℕ := 0
  total_replies : ℕ := 0
deriving DecidableEq, Repr

/-- The daily-reset side effect of `_get_chat_state` (main.py lines 464-470):
if the stored reset date differs from today, stamp today and recover 0.2
energy, capped at 1.0. -/
def applyDailyReset (s : ChatState) (today : String) : ChatState :=
  if s.last_reset_date ≠ today then
    { s with last_reset_date := today, energy := min 1 (s.energy + 0.2) }
  else s

/-- `_update_active_state` (main.py lines 589-602) restricted to the state
value it mutates: it first runs `_get_chat_state` (daily reset), then
stamps the reply time, bumps both counters, and decays energy by the
configured rate, floored at 0.1. -/
def updateActiveState (decay : ℚ) (now : ℚ) (today : String) (s : ChatState) : ChatState :=
  let s' := applyDailyReset s today
  { s' with
    last_reply_time := now
    total_replies := s'.total_replies + 1
    total_messages := s'.total_messages + 1
    energy := max 0.1 (s'.energy - decay) }

/-- `_update_passive_state` (main.py lines 604-615): after the
`_get_chat_state` daily reset, bump the message counter and recover
energy by the configured rate, capped at 1.0. -/
def updatePassiveState (recovery : ℚ) (today : String) (s : ChatState) : ChatState :=
  let s' := applyDailyReset s today
  { s' with
    total_messages := s'.total_messages + 1
    energy := min 1 (s'.energy + recovery) }

/-- One call affecting a chat's energy: an active-reply update, a passive
update, or a bare `_get_chat_state` lookup (which may apply the daily
reset). -/
inductive EnergyOp where
  | active (now : ℚ) (today : String)
  | passive (today : String)
  | touch (today : String)
deriving DecidableEq, Repr

/-- Apply a single energy-affecting call to a chat state. -/
def applyEnergyOp (decay recovery : ℚ) (s : ChatState) : EnergyOp → ChatState
  | .active now today => updateActiveState decay now today s
  | .passive today => updatePassiveState recovery today s
  | .touch today => applyDailyReset s today

/-- Apply a finite sequence of energy-affecting calls in order. -/
def applyEnergyOps (decay recovery : ℚ) (s : ChatState) (ops : List EnergyOp) : ChatState :=
  ops.foldl (applyEnergyOp decay recovery) s

/-- The daily reset keeps energy within `[0.1, 1]`. -/
theorem applyDailyReset_energy_bounds (s : ChatState) (today : String)
    (h1 : 0.1 ≤ s.energy) (h2 : s.energy ≤ 1) :
    0.1 ≤ (applyDailyReset s today).energy ∧ (applyDailyReset s today).energy ≤ 1 := by
  unfold applyDailyReset
  split
  · constructor
    · simp only [le_min_iff]
      constructor <;> norm_num
      linarith
    · simp [min_le_iff]
  · exact ⟨h1, h2⟩

/-- A single energy-affecting call keeps energy within `[0.1, 1]` when the
decay and recovery rates are nonnegative. -/
theorem applyEnergyOp_energy_bounds (decay recovery : ℚ) (s : ChatState) (op : EnergyOp)
    (hd : 0 ≤ decay) (hr : 0 ≤ recovery) (h1 : 0.1 ≤ s.energy) (h2 : s.energy ≤ 1) :
    0.1 ≤ (applyEnergyOp decay recovery s op).energy ∧
      (applyEnergyOp decay recovery s op).energy ≤ 1 := by
  cases op with
  | active now today =>
    obtain ⟨g1, g2⟩ := applyDailyReset_energy_bounds s today h1 h2
    unfold applyEnergyOp updateActiveState
    constructor
    · simp [le_max_iff]
    · simp only [max_le_iff]
      constructor
      · norm_num
      · linarith
  | passive today =>
    obtain ⟨g1, g2⟩ := applyDailyReset_energy_bounds s today h1 h2
    unfold applyEnergyOp updatePassiveState
    constructor
    · simp only [le_min_iff]
      constructor
      · norm_num
      · linarith
    · simp [min_le_iff]
  | touch today => exact applyDailyReset_energy_bounds s today h1 h2

/-- C5: for every chat state with energy in `[0.1, 1]` and every finite
sequence of `_update_active_state` / `_update_passive_state` /
`_get_chat_state` calls with nonnegative configured decay and recovery
rates, the energy field never leaves `[0.1, 1]`: the active update
decays energy floored at 0.1, the passive update recovers energy capped
at 1.0, and the daily-reset bonus of `_get_chat_state` is also capped
at 1.0. -/
theorem energy_invariant_spec (decay recovery : ℚ) (hd : 0 ≤ decay) (hr : 0 ≤ recovery)
    (ops : List EnergyOp) (s : ChatState) (h1 : 0.1 ≤ s.energy) (h2 : s.energy ≤ 1) :
    0.1 ≤ (applyEnergyOps decay recovery s ops).energy ∧
      (applyEnergyOps decay recovery s ops).energy ≤ 1 := by
  induction ops generalizing s with
  | nil => exact ⟨h1, h2⟩
  | cons op rest ih =>
    obtain ⟨g1, g2⟩ := applyEnergyOp_energy_bounds decay recovery s op hd hr h1 h2
    exact ih (applyEnergyOp decay recovery s op) g1 g2

/-- Witness for `energy_invariant_spec`: the default configuration
(decay 0.1, recovery 0.02) applied to the freshly created state through
an active reply, two passive messages and a daily reset keeps energy in
`[0.1, 1]`. -/
theorem energy_invariant_spec_witness :
    0.1 ≤ (applyEnergyOps 0.1 0.02 {}
        [.touch "2026-10-12", .active 100 "2026-10-12", .passive "2026-10-12",
         .passive "2026-10-13"]).energy ∧
      (applyEnergyOps 0.1 0.02 {}
        [.touch "2026-10-12", .active 100 "2026-10-12", .passive "2026-10-12",
         .passive "2026-10-13"]).energy ≤ 1 :=
  energy_invariant_spec 0.1 0.02 (by norm_num) (by norm_num) _ {} (by norm_num) (by norm_num)

/-- Python `str.replace` helper: replace every non-overlapping occurrence of
`old` (nonempty) left to right, recursing on an explicit fuel that bounds
the number of examined positions so the recursion is structural. -/
def pyReplaceGo (old new : List Char) : ℕ → List Char → List Char
  | _, [] => []
  | 0, s => s
  | fuel + 1, c :: rest =>
    if old.isPrefixOf (c :: rest) then
      new ++ pyReplaceGo old new fuel (List.drop (old.length - 1) rest)
    else
      c :: pyReplaceGo old new fuel rest

/-- Python `s.replace(old, new)` for a nonempty pattern (the only use in
main.py, lines 387-390, has a fixed nonempty pattern); for an empty
pattern the input is returned unchanged (that case is never exercised). -/
def pyReplace (s old new : List Char) : List Char :=
  if old = [] then s else pyReplaceGo old new s.length s

/-- Python `old in s` substring test. -/
def containsSeq (pat : List Char) : List Char → Bool
  | [] => pat.isEmpty
  | c :: rest => pat.isPrefixOf (c :: rest) || containsSeq pat rest

/-- The fixed instruction reminder embedded in the complete judge prompt
(main.py line 313) and used as the replacement pattern on every retry
(main.py line 388). -/
def baseReminder : List Char :=
  "**重要提醒：你必须严格按照JSON格式返回结果，不要包含任何其他内容！请不要进行对话，只返回JSON！**".data

/-- The strengthened attempt-numbered reminder installed before a retry
(main.py line 389), for attempt number `n` (the code passes
`attempt + 2`). -/
def numberedReminder (n : ℕ) : List Char :=
  ("**重要提醒：你必须严格按照JSON格式返回结果，不要包含任何其他内容！请不要进行对话，只返回JSON！这是第"
    ++ toString n ++ "次尝试，请确保返回有效的JSON格式！**").data

/-- The complete judge prompt assembled at main.py lines 310-314: a fixed
system sentence, an optional persona clause, the base reminder framed by
blank lines, then the rendered judgment request (`judge_prompt`, built at
main.py lines 238-303 from the event, wall-clock time and conversation
history; its rendered text is taken as a parameter here). -/
def buildCompletePrompt (persona judgeBody : List Char) : List Char :=
  "你是一个专业的群聊回复决策系统，能够准确判断消息价值和回复时机。".data ++
  (if persona = [] then [] else "\n\n你正在为以下角色的机器人做决策：\n".data ++ persona) ++
  "\n\n".data ++ baseReminder ++ "\n\n".data ++ judgeBody

/-- The per-chat state map `self.chat_states` (main.py line 73), embedded as
an insertion-ordered association list. -/
abbrev ChatStates := List (String × ChatState)

/-- `_get_chat_state` (main.py lines 458-472) restricted to its effect on the
state map: lazily create the entry, then apply the daily reset to it. -/
def touchChatState (states : ChatStates) (chatId today : String) : ChatStates :=
  let states' :=
    if (states.lookup chatId).isSome then states else states ++ [(chatId, ({} : ChatState))]
  states'.map (fun p => if p.1 = chatId then (p.1, applyDailyReset p.2 today) else p)

/-- The configuration fields of the plugin that feed
`judge_with_tiny_model` (main.py lines 59-99). -/
structure JudgeConfig where
  judge_provider_name : String
  reply_threshold : ℚ
  judge_include_reasoning : Bool
  judge_max_retries : ℕ
  weights : Weights
deriving DecidableEq, Repr

/-- Outcome of `self.context.get_provider_by_id(...)` (main.py lines
209-216): the call may raise, return `None`, or return a provider. -/
inductive ProviderLookup where
  | raised (e : String)
  | notFound
  | found
deriving DecidableEq, Repr

/-- Observable outcome of one `judge_with_tiny_model` call: the returned
`JudgeResult`, the chat-state map afterwards, the number of judge-model
attempts performed, and the final judge prompt text. -/
structure JudgeOutcome where
  result : JudgeResult
  states : ChatStates
  attempts : ℕ
  finalPrompt : List Char
deriving DecidableEq, Repr

/-- `max_retries` as computed at main.py lines 317-321: configured retries
plus the original attempt, with a redundant special case for zero. -/
def totalAttempts (retries : ℕ) : ℕ :=
  if retries = 0 then 1 else retries + 1

theorem totalAttempts_eq (retries : ℕ) : totalAttempts retries = retries + 1 := by
  unfold totalAttempts
  split <;> omega

/-- The retry loop of `judge_with_tiny_model` (main.py lines 323-391).
`done` counts attempts already made, `remaining` the attempts still
allowed, `p` the current complete judge prompt.  Each attempt consumes
`responses done`: an exception from the provider call (`Except.error`)
propagates out of the loop to the outer handler (main.py lines 393-395);
a `json.loads` failure (`Except.ok none`) retries after replacing the
base reminder by an attempt-numbered one, or returns the exhaustion
result on the last attempt (main.py lines 377-391); a parsed response
yields the computed `JudgeResult` (main.py lines 341-375).  Returns the
result, the total attempts made, and the final prompt. -/
def judgeLoop (w : Weights) (threshold : ℚ) (includeReasoning : Bool) (retries : ℕ)
    (responses : ℕ → Except String (Option ParsedJudge)) :
    ℕ → ℕ → List Char → JudgeResult × ℕ × List Char
  | done, 0, p =>
    (failResult ("JSON解析失败，重试" ++ toString retries ++ "次"), done, p)
  | done, remaining + 1, p =>
    match responses done with
    | .error e => (failResult ("异常: " ++ e), done + 1, p)
    | .ok (some d) => (computeJudgeResult w threshold includeReasoning d, done + 1, p)
    | .ok none =>
      if remaining = 0 then
        (failResult ("JSON解析失败，重试" ++ toString retries ++ "次"), done + 1, p)
      else
        judgeLoop w threshold includeReasoning retries responses
          (done + 1) remaining (pyReplace p baseReminder (numberedReminder (done + 2)))

/-- `judge_with_tiny_model` (main.py lines 201-395).  The provider-name and
provider-resolution checks (lines 204-216) precede the `_get_chat_state`
call (line 219); only when a provider is found does the state map get
touched and the retry loop run. -/
def judgeWithTinyModel (cfg : JudgeConfig) (lookup : ProviderLookup) (states : ChatStates)
    (chatId today : String) (responses : ℕ → Except String (Option ParsedJudge))
    (p0 : List Char) : JudgeOutcome :=
  if cfg.judge_provider_name = "" then
    { result := failResult "提供商未配置", states := states, attempts := 0, finalPrompt := p0 }
  else
    match lookup with
    | .raised e =>
      { result := failResult ("获取提供商失败: " ++ e), states := states, attempts := 0,
        finalPrompt := p0 }
    | .notFound =>
      { result := failResult ("提供商不存在: " ++ cfg.judge_provider_name), states := states,
        attempts := 0, finalPrompt := p0 }
    | .found =>
      let states' := touchChatState states chatId today
      let out := judgeLoop cfg.weights cfg.reply_threshold cfg.judge_include_reasoning
        cfg.judge_max_retries responses 0 (totalAttempts cfg.judge_max_retries) p0
      { result := out.1, states := states', attempts := out.2.1, finalPrompt := out.2.2 }

/-- The clamp applied to the configured retry count at construction
(main.py line 83): `max(0, self.config.get("judge_max_retries", 3))`. -/
def clampRetries (n : ℤ) : ℤ := max 0 n

/-- A representative plugin configuration: provider `"judge"`, threshold
0.6, reasoning enabled, 2 retries, default weights. -/
def demoConfig : JudgeConfig :=
  { judge_provider_name := "judge", reply_threshold := 0.6, judge_include_reasoning := true,
    judge_max_retries := 2, weights := defaultWeights }

/-- A representative rendered judgment request body. -/
def demoBody : List Char := "## 待判断消息\n内容: 你好\n请以JSON格式回复。".data

/-- The complete judge prompt for an empty persona and the representative
body. -/
def demoPrompt0 : List Char := buildCompletePrompt [] demoBody

/-- The retry loop never makes more attempts than it is allowed. -/
theorem judgeLoop_attempts_le (w : Weights) (thr : ℚ) (inc : Bool) (R : ℕ)
    (responses : ℕ → Except String (Option ParsedJudge)) :
    ∀ remaining done p,
      (judgeLoop w thr inc R responses done remaining p).2.1 ≤ done + remaining := by
  intro remaining
  induction remaining with
  | zero =>
    intro done p
    simp [judgeLoop]
  | succ rem ih =>
    intro done p
    cases h : responses done with
    | error e => simp [judgeLoop, h]
    | ok o =>
      cases o with
      | some d => simp [judgeLoop, h]
      | none =>
        by_cases hrem : rem = 0
        · subst hrem
          simp [judgeLoop, h]
        · have := ih (done + 1) (pyReplace p baseReminder (numberedReminder (done + 2)))
          simp only [judgeLoop, h]
          simp [hrem]
          omega

/-- With exactly one allowed attempt the loop makes exactly one attempt,
whatever the response. -/
theorem judgeLoop_one_attempt (w : Weights) (thr : ℚ) (inc : Bool) (R : ℕ)
    (responses : ℕ → Except String (Option ParsedJudge)) (done : ℕ) (p : List Char) :
    (judgeLoop w thr inc R responses done 1 p).2.1 = done + 1 := by
  cases h : responses done with
  | error e => simp [judgeLoop, h]
  | ok o => cases o <;> simp [judgeLoop, h]

/-- When every response is malformed JSON, the loop uses every allowed
attempt and returns the retry-exhaustion result. -/
theorem judgeLoop_all_malformed (w : Weights) (thr : ℚ) (inc : Bool) (R : ℕ)
    (responses : ℕ → Except String (Option ParsedJudge))
    (hm : ∀ i, responses i = .ok none) :
    ∀ remaining done p, 1 ≤ remaining →
      (judgeLoop w thr inc R responses done remaining p).1 =
        failResult ("JSON解析失败，重试" ++ toString R ++ "次") ∧
      (judgeLoop w thr inc R responses done remaining p).2.1 = done + remaining := by
  intro remaining
  induction remaining with
  | zero => intro done p h; omega
  | succ rem ih =>
    intro done p _
    by_cases hrem : rem = 0
    · subst hrem
      simp [judgeLoop, hm done]
    · have := ih (done + 1) (pyReplace p baseReminder (numberedReminder (done + 2))) (by omega)
      simp only [judgeLoop, hm done]
      simp only [hrem, if_false]
      exact ⟨this.1, by omega⟩

/-- If the first `k` responses are malformed and response `k` parses, the
loop returns the result computed from that attempt, after `k + 1`
attempts. -/
theorem judgeLoop_success_at (w : Weights) (thr : ℚ) (inc : Bool) (R : ℕ)
    (responses : ℕ → Except String (Option ParsedJudge)) :
    ∀ (k : ℕ) (d : ParsedJudge) (remaining done : ℕ) (p : List Char),
      (∀ i, i < k → responses (done + i) = .ok none) →
      responses (done + k) = .ok (some d) → k < remaining →
      (judgeLoop w thr inc R responses done remaining p).1 =
        computeJudgeResult w thr inc d ∧
      (judgeLoop w thr inc R responses done remaining p).2.1 = done + k + 1 := by
  intro k
  induction k with
  | zero =>
    intro d remaining done p _ hk hlt
    obtain ⟨rem, rfl⟩ : ∃ rem, remaining = rem + 1 := ⟨remaining - 1, by omega⟩
    rw [Nat.add_zero] at hk
    simp [judgeLoop, hk]
  | succ k ih =>
    intro d remaining done p hpre hk hlt
    obtain ⟨rem, rfl⟩ : ∃ rem, remaining = rem + 1 := ⟨remaining - 1, by omega⟩
    have h0 : responses done = .ok none := by
      have := hpre 0 (by omega)
      rwa [Nat.add_zero] at this
    have hrem : rem ≠ 0 := by omega
    have hrec := ih d rem (done + 1)
      (pyReplace p baseReminder (numberedReminder (done + 2)))
      (fun i hi => by
        have := hpre (i + 1) (by omega)
        rwa [show done + (i + 1) = done + 1 + i by omega] at this)
      (by rwa [show done + 1 + k = done + (k + 1) by omega])
      (by omega)
    simp only [judgeLoop, h0]
    simp only [hrem, if_false]
    exact ⟨hrec.1, by omega⟩

/-- If the first `k` responses are malformed and the provider call of
attempt `k` raises, the exception propagates and the loop stops after
`k + 1` attempts with the exception result. -/
theorem judgeLoop_error_at (w : Weights) (thr : ℚ) (inc : Bool) (R : ℕ)
    (responses : ℕ → Except String (Option ParsedJudge)) :
    ∀ (k : ℕ) (e : String) (remaining done : ℕ) (p : List Char),
      (∀ i, i < k → responses (done + i) = .ok none) →
      responses (done + k) = .error e → k < remaining →
      (judgeLoop w thr inc R responses done remaining p).1 =
        failResult ("异常: " ++ e) ∧
      (judgeLoop w thr inc R responses done remaining p).2.1 = done + k + 1 := by
  intro k
  induction k with
  | zero =>
    intro e remaining done p _ hk hlt
    obtain ⟨rem, rfl⟩ : ∃ rem, remaining = rem + 1 := ⟨remaining - 1, by omega⟩
    rw [Nat.add_zero] at hk
    simp [judgeLoop, hk]
  | succ k ih =>
    intro e remaining done p hpre hk hlt
    obtain ⟨rem, rfl⟩ : ∃ rem, remaining = rem + 1 := ⟨remaining - 1, by omega⟩
    have h0 : responses done = .ok none := by
      have := hpre 0 (by omega)
      rwa [Nat.add_zero] at this
    have hrem : rem ≠ 0 := by omega
    have hrec := ih e rem (done + 1)
      (pyReplace p baseReminder (numberedReminder (done + 2)))
      (fun i hi => by
        have := hpre (i + 1) (by omega)
        rwa [show done + (i + 1) = done + 1 + i by omega] at this)
      (by rwa [show done + 1 + k = done + (k + 1) by omega])
      (by omega)
    simp only [judgeLoop, h0]
    simp only [hrem, if_false]
    exact ⟨hrec.1, by omega⟩

/-- C4 counterexample: with max-retries 2 and a judge model that returns
malformed output on every attempt, three attempts are made, but the
prompt in effect for the third attempt is identical to the prompt of the
second attempt: the single `str.replace` performed before the first
retry removed the base reminder, so the replace attempted before the
second retry finds no occurrence and is a no-op, and the text carries an
attempt-2 reminder, not an attempt-3 one — the instruction text is not
strengthened with an attempt-numbered reminder before each retry. -/
theorem retry_reminder_cex :
    (judgeWithTinyModel demoConfig .found [] "chat1" "2026-10-12" (fun _ => .ok none)
        demoPrompt0).attempts = 3 ∧
    (judgeWithTinyModel demoConfig .found [] "chat1" "2026-10-12" (fun _ => .ok none)
        demoPrompt0).finalPrompt =
      pyReplace demoPrompt0 baseReminder (numberedReminder 2) ∧
    containsSeq (numberedReminder 2)
      ((judgeWithTinyModel demoConfig .found [] "chat1" "2026-10-12" (fun _ => .ok none)
        demoPrompt0).finalPrompt) = true ∧
    containsSeq (numberedReminder 3)
      ((judgeWithTinyModel demoConfig .found [] "chat1" "2026-10-12" (fun _ => .ok none)
        demoPrompt0).finalPrompt) = false := by
  refine ⟨?_, ?_, ?_, ?_⟩ <;> decide

/-- When a provider name is configured and the provider is found,
`judge_with_tiny_model` touches the chat state and runs the retry loop. -/
theorem judgeWithTinyModel_found_eq (cfg : JudgeConfig) (states : ChatStates)
    (chatId today : String) (responses : ℕ → Except String (Option ParsedJudge))
    (p0 : List Char) (hname : cfg.judge_provider_name ≠ "") :
    judgeWithTinyModel cfg .found states chatId today responses p0 =
      { result := (judgeLoop cfg.weights cfg.reply_threshold cfg.judge_include_reasoning
          cfg.judge_max_retries responses 0 (cfg.judge_max_retries + 1) p0).1,
        states := touchChatState states chatId today,
        attempts := (judgeLoop cfg.weights cfg.reply_threshold cfg.judge_include_reasoning
          cfg.judge_max_retries responses 0 (cfg.judge_max_retries + 1) p0).2.1,
        finalPrompt := (judgeLoop cfg.weights cfg.reply_threshold
          cfg.judge_include_reasoning cfg.judge_max_retries responses 0
          (cfg.judge_max_retries + 1) p0).2.2 } := by
  rw [show cfg.judge_max_retries + 1 = totalAttempts cfg.judge_max_retries from
    (totalAttempts_eq cfg.judge_max_retries).symm]
  simp [judgeWithTinyModel, hname]

/-- C4 (amended): with configured max-retries `R ≥ 0` and a resolvable
provider, `judge_with_tiny_model` makes at most `R + 1` attempts
(exactly 1 when `R = 0`); if every attempt yields malformed JSON it
returns `should_reply = false` after exactly `R + 1` attempts with a
reason citing retry exhaustion; if the first parsed response arrives at
attempt `k + 1 ≤ R + 1` the call returns the `JudgeResult` computed from
it; and the instruction text is strengthened with an attempt-numbered
reminder only before the first retry — later retries reuse that text
unchanged, since the replacement pattern no longer occurs (illustrated
on the representative prompt). -/
theorem judge_retry_amended :
    (∀ (cfg : JudgeConfig) (states : ChatStates) (chatId today : String)
        (responses : ℕ → Except String (Option ParsedJudge)) (p0 : List Char),
      cfg.judge_provider_name ≠ "" →
      ((judgeWithTinyModel cfg .found states chatId today responses p0).attempts ≤
          cfg.judge_max_retries + 1) ∧
      (cfg.judge_max_retries = 0 →
        (judgeWithTinyModel cfg .found states chatId today responses p0).attempts = 1) ∧
      ((∀ i, responses i = .ok none) →
        (judgeWithTinyModel cfg .found states chatId today responses p0).result =
          failResult ("JSON解析失败，重试" ++ toString cfg.judge_max_retries ++ "次") ∧
        (judgeWithTinyModel cfg .found states chatId today responses p0).attempts =
          cfg.judge_max_retries + 1) ∧
      (∀ k d, (∀ i, i < k → responses i = .ok none) → responses k = .ok (some d) →
        k ≤ cfg.judge_max_retries →
        (judgeWithTinyModel cfg .found states chatId today responses p0).result =
          computeJudgeResult cfg.weights cfg.reply_threshold cfg.judge_include_reasoning d ∧
        (judgeWithTinyModel cfg .found states chatId today responses p0).attempts = k + 1)) ∧
    ((judgeWithTinyModel demoConfig .found [] "chat1" "2026-10-12" (fun _ => .ok none)
        demoPrompt0).finalPrompt =
      pyReplace demoPrompt0 baseReminder (numberedReminder 2) ∧
      containsSeq (numberedReminder 2)
        ((judgeWithTinyModel demoConfig .found [] "chat1" "2026-10-12" (fun _ => .ok none)
          demoPrompt0).finalPrompt) = true ∧
      containsSeq (numberedReminder 3)
        ((judgeWithTinyModel demoConfig .found [] "chat1" "2026-10-12" (fun _ => .ok none)
          demoPrompt0).finalPrompt) = false) := by
  constructor
  · intro cfg states chatId today responses p0 hname
    have hout := judgeWithTinyModel_found_eq cfg states chatId today responses p0 hname
    refine ⟨?_, ?_, ?_, ?_⟩
    · rw [hout]
      have := judgeLoop_attempts_le cfg.weights cfg.reply_threshold
        cfg.judge_include_reasoning cfg.judge_max_retries responses
        (cfg.judge_max_retries + 1) 0 p0
      simpa using this
    · intro h0
      rw [hout]
      simp only [h0]
      exact judgeLoop_one_attempt cfg.weights cfg.reply_threshold
        cfg.judge_include_reasoning 0 responses 0 p0
    · intro hm
      rw [hout]
      have := judgeLoop_all_malformed cfg.weights cfg.reply_threshold
        cfg.judge_include_reasoning cfg.judge_max_retries responses hm
        (cfg.judge_max_retries + 1) 0 p0 (by omega)
      exact ⟨this.1, by simpa using this.2⟩
    · intro k d hpre hk hle
      rw [hout]
      have := judgeLoop_success_at cfg.weights cfg.reply_threshold
        cfg.judge_include_reasoning cfg.judge_max_retries responses k d
        (cfg.judge_max_retries + 1) 0 p0
        (fun i hi => by simpa using hpre i hi) (by simpa using hk)
        (by omega)
      exact ⟨this.1, by simpa using this.2⟩
  · refine ⟨?_, ?_, ?_⟩ <;> decide

/-- A representative parsed judge response. -/
def demoParsed : ParsedJudge :=
  { relevance := some 8, willingness := some 7, social := some 6, timing := some 5,
    continuity := some 9, reasoning := some "话题相关" }

/-- Witness for `judge_retry_amended`: a judge model that is malformed on
the first attempt and parses on the second makes exactly 2 attempts. -/
theorem judge_retry_amended_witness :
    (judgeWithTinyModel demoConfig .found [] "chat1" "2026-10-12"
        (fun i => if i = 0 then .ok none else .ok (some demoParsed)) demoPrompt0).attempts =
      2 := by
  have h := (judge_retry_amended.1 demoConfig [] "chat1" "2026-10-12"
    (fun i => if i = 0 then .ok none else .ok (some demoParsed)) demoPrompt0
    (by decide)).2.2.2 1 demoParsed
    (fun i hi => by
      obtain rfl : i = 0 := by omega
      rfl)
    rfl (by decide)
  exact h.2

/-- C8 counterexample: when the provider call itself raises (here on the
first attempt), `judge_with_tiny_model` does return immediately with
`should_reply = false` and the failure description — but the chat state
HAS been mutated by that call, because `_get_chat_state` (line 219) runs
before the `try` block: the stored entry's reset date advances (and its
energy receives the daily bonus). -/
theorem judge_exception_mutates_state_cex :
    (judgeWithTinyModel demoConfig .found
        [("chat1", { energy := 0.5, last_reset_date := "2026-10-11" })] "chat1" "2026-10-12"
        (fun _ => .error "boom") demoPrompt0).result = failResult "异常: boom" ∧
    (judgeWithTinyModel demoConfig .found
        [("chat1", { energy := 0.5, last_reset_date := "2026-10-11" })] "chat1" "2026-10-12"
        (fun _ => .error "boom") demoPrompt0).attempts = 1 ∧
    (judgeWithTinyModel demoConfig .found
        [("chat1", { energy := 0.5, last_reset_date := "2026-10-11" })] "chat1" "2026-10-12"
        (fun _ => .error "boom") demoPrompt0).states ≠
      [("chat1", { energy := 0.5, last_reset_date := "2026-10-11" })] := by
  refine ⟨by decide, by decide, fun h => ?_⟩
  have := congrArg (List.map (fun p => p.2.last_reset_date)) h
  exact absurd this (by decide)

/-- C8 (amended): if no judge-model identifier is configured, or the
provider lookup raises, or the provider is not found,
`judge_with_tiny_model` returns immediately with `should_reply = false`,
a diagnostic reason, zero judge attempts, and the chat-state map
untouched; if the external call of attempt `k + 1` raises (after `k`
malformed attempts), it returns immediately with the failure description
and no further attempt — but on that path the chat-state map has already
received the `_get_chat_state` lazy-creation/daily-reset side effect,
which is its only mutation (neither the active nor the passive update
runs). -/
theorem judge_failure_paths_amended :
    ∀ (cfg : JudgeConfig) (lookup : ProviderLookup) (states : ChatStates)
      (chatId today : String) (responses : ℕ → Except String (Option ParsedJudge))
      (p0 : List Char),
      (cfg.judge_provider_name = "" →
        judgeWithTinyModel cfg lookup states chatId today responses p0 =
          { result := failResult "提供商未配置", states := states, attempts := 0,
            finalPrompt := p0 }) ∧
      (cfg.judge_provider_name ≠ "" → ∀ e,
        judgeWithTinyModel cfg (.raised e) states chatId today responses p0 =
          { result := failResult ("获取提供商失败: " ++ e), states := states, attempts := 0,
            finalPrompt := p0 }) ∧
      (cfg.judge_provider_name ≠ "" →
        judgeWithTinyModel cfg .notFound states chatId today responses p0 =
          { result := failResult ("提供商不存在: " ++ cfg.judge_provider_name),
            states := states, attempts := 0, finalPrompt := p0 }) ∧
      (cfg.judge_provider_name ≠ "" → ∀ k e,
        (∀ i, i < k → responses i = .ok none) → responses k = .error e →
        k ≤ cfg.judge_max_retries →
        (judgeWithTinyModel cfg .found states chatId today responses p0).result =
          failResult ("异常: " ++ e) ∧
        (judgeWithTinyModel cfg .found states chatId today responses p0).attempts = k + 1 ∧
        (judgeWithTinyModel cfg .found states chatId today responses p0).states =
          touchChatState states chatId today) := by
  intro cfg lookup states chatId today responses p0
  refine ⟨?_, ?_, ?_, ?_⟩
  · intro h
    simp [judgeWithTinyModel, h]
  · intro hname e
    simp [judgeWithTinyModel, hname]
  · intro hname
    simp [judgeWithTinyModel, hname]
  · intro hname k e hpre hk hle
    have hout := judgeWithTinyModel_found_eq cfg states chatId today responses p0 hname
    have := judgeLoop_error_at cfg.weights cfg.reply_threshold
      cfg.judge_include_reasoning cfg.judge_max_retries responses k e
      (cfg.judge_max_retries + 1) 0 p0
      (fun i hi => by simpa using hpre i hi) (by simpa using hk) (by omega)
    rw [hout]
    exact ⟨this.1, by simpa using this.2, rfl⟩

/-- Witness for `judge_failure_paths_amended`: with an unconfigured
provider name the call returns the diagnostic result, makes no attempt,
and leaves the chat-state map untouched. -/
theorem judge_failure_paths_amended_witness :
    judgeWithTinyModel
        { judge_provider_name := "", reply_threshold := 0.6, judge_include_reasoning := true,
          judge_max_retries := 2, weights := defaultWeights }
        .found [] "chat1" "2026-10-12" (fun _ => .ok none) demoPrompt0 =
      { result := failResult "提供商未配置", states := [], attempts := 0,
        finalPrompt := demoPrompt0 } :=
  (judge_failure_paths_amended
    { judge_provider_name := "", reply_threshold := 0.6, judge_include_reasoning := true,
      judge_max_retries := 2, weights := defaultWeights }
    .found [] "chat1" "2026-10-12" (fun _ => .ok none) demoPrompt0).1 rfl

/-- C10: the configured retry count is clamped at construction to
`max(0, value)`, so with a configured provider `judge_with_tiny_model`
always makes at least one judge attempt, and exactly
`max(0, value) + 1` attempts when every attempt is malformed. -/
theorem judge_retry_clamp_spec (n : ℤ) (cfg : JudgeConfig)
    (hclamp : cfg.judge_max_retries = (clampRetries n).toNat)
    (hname : cfg.judge_provider_name ≠ "")
    (states : ChatStates) (chatId today : String)
    (responses : ℕ → Except String (Option ParsedJudge)) (p0 : List Char)
    (hm : ∀ i, responses i = .ok none) :
    0 ≤ clampRetries n ∧
    1 ≤ (judgeWithTinyModel cfg .found states chatId today responses p0).attempts ∧
    (judgeWithTinyModel cfg .found states chatId today responses p0).attempts =
      (clampRetries n).toNat + 1 := by
  have hout := judgeWithTinyModel_found_eq cfg states chatId today responses p0 hname
  have := judgeLoop_all_malformed cfg.weights cfg.reply_threshold
    cfg.judge_include_reasoning cfg.judge_max_retries responses hm
    (cfg.judge_max_retries + 1) 0 p0 (by omega)
  have hatt : (judgeWithTinyModel cfg .found states chatId today responses p0).attempts =
      cfg.judge_max_retries + 1 := by
    rw [hout]
    simpa using this.2
  refine ⟨le_max_left 0 n, ?_, ?_⟩
  · omega
  · rw [hatt, hclamp]

/-- Witness for `judge_retry_clamp_spec`: a configured value of `-3` is
clamped to 0, and an all-malformed judge model is consulted exactly
once. -/
theorem judge_retry_clamp_spec_witness :
    1 ≤ (judgeWithTinyModel
        { judge_provider_name := "judge", reply_threshold := 0.6,
          judge_include_reasoning := true, judge_max_retries := 0, weights := defaultWeights }
        .found [] "chat1" "2026-10-12" (fun _ => .ok none) demoPrompt0).attempts ∧
    (judgeWithTinyModel
        { judge_provider_name := "judge", reply_threshold := 0.6,
          judge_include_reasoning := true, judge_max_retries := 0, weights := defaultWeights }
        .found [] "chat1" "2026-10-12" (fun _ => .ok none) demoPrompt0).attempts =
      (clampRetries (-3)).toNat + 1 := by
  have h := judge_retry_clamp_spec (-3)
    { judge_provider_name := "judge", reply_threshold := 0.6,
      judge_include_reasoning := true, judge_max_retries := 0, weights := defaultWeights }
    (by norm_num [clampRetries]) (by decide) [] "chat1" "2026-10-12"
    (fun _ => .ok none) demoPrompt0 (fun _ => rfl)
  exact ⟨h.2.1, h.2.2⟩

/-- Abstract message identifier (standing for one admitted message's
`{timestamp, content, event}` record, main.py lines 625-629). -/
abbrev Msg := ℕ

/-- `UserWaitState` (main.py lines 41-48) restricted to the fields the
debounce logic reads: the accumulated messages and `waiting_since`.
The timer task itself is modelled by the `timer` field of
`DebounceState`. -/
structure WaitEntry where
  msgs : List Msg
  waitingSince : ℚ
deriving DecidableEq, Repr

/-- The debounce state for one `{chat_id}_{user_id}` key under the
single-threaded asyncio scheduler: the optional wait-state entry, the arm
time of the live (pending, uncancelled, unfired) timer if any, and the
units handed to the downstream event queue so far, each recorded as
(fire time, arm time of the firing timer, merged messages). -/
structure DebounceState where
  entry : Option WaitEntry
  timer : Option ℚ
  emitted : List (ℚ × ℚ × List Msg)
deriving DecidableEq, Repr

/-- No entry, no timer, nothing emitted. -/
def initDebounce : DebounceState := { entry := none, timer := none, emitted := [] }

/-- `_wait_and_reply` (main.py lines 665-717) for the timer armed at `a`,
running at time `a + quiet` after its sleep completes uncancelled:
if the entry is gone, return; if `now - waiting_since <
quiet - 0.1` a newer message re-armed the key and this stale firing is a
no-op; if `_combine_user_messages` gets an empty list it returns `None`
and nothing is emitted; otherwise the merged unit is put on the event
queue and `accumulated_messages` is cleared.  In every case the
`finally` block (lines 711-717) deletes the entry only when the entry's
current `timer_task` is `done()` — the firing task is still executing
its own `finally`, so `done()` is `False` and the entry is never
removed there; a cancelled task likewise observes the replacing pending
task as not done.  Hence the entry is kept on all paths. -/
def fireTimer (q slack : ℚ) (s : DebounceState) (a : ℚ) : DebounceState :=
  match s.entry with
  | none => { s with timer := none }
  | some e =>
    if a + q - e.waitingSince < q - slack then { s with timer := none }
    else if e.msgs = [] then { s with timer := none }
    else
      { entry := some { msgs := [], waitingSince := e.waitingSince }
        timer := none
        emitted := s.emitted ++ [(a + q, a, e.msgs)] }

/-- `_enter_silent_wait` (main.py lines 617-663) for one key: if the entry
exists, cancel any pending timer, append the message and re-arm; if not,
create the entry with the message as sole accumulated item.  Either way
`waiting_since` is set to the arrival time and a fresh timer is armed at
it. -/
def admitMessage (s : DebounceState) (t : ℚ) (m : Msg) : DebounceState :=
  match s.entry with
  | some e =>
    { entry := some { msgs := e.msgs ++ [m], waitingSince := t }
      timer := some t
      emitted := s.emitted }
  | none =>
    { entry := some { msgs := [m], waitingSince := t }
      timer := some t
      emitted := s.emitted }

/-- One admitted arrival at time `t` under the cooperative scheduler: a
pending timer whose fire time `a + q` lies strictly before `t` has
already fired and run its handler; otherwise the arrival cancels it
(an exact tie is resolved in favour of the arrival).  Then the message
is admitted. -/
def stepArrival (q slack : ℚ) (s : DebounceState) (t : ℚ) (m : Msg) : DebounceState :=
  let s' :=
    match s.timer with
    | some a => if a + q < t then fireTimer q slack s a else s
    | none => s
  admitMessage s' t m

/-- Run a finite sequence of admitted arrivals (time-ordered) and then let
any remaining timer fire. -/
def runDebounce (q slack : ℚ) : DebounceState → List (ℚ × Msg) → DebounceState
  | s, [] =>
    match s.timer with
    | some a => fireTimer q slack s a
    | none => s
  | s, (t, m) :: rest => runDebounce q slack (stepArrival q slack s t m) rest

/-- Reference grouping of time-ordered arrivals into unbroken bursts: an
arrival extends the current burst exactly when it lands no later than
`q` after the previous arrival (the condition under which it re-arms the
pending timer instead of letting it fire). -/
def burstsAux (q : ℚ) : ℚ → List (ℚ × Msg) → List (ℚ × Msg) → List (List (ℚ × Msg))
  | _, cur, [] => [cur]
  | last, cur, (t, m) :: rest =>
    if t ≤ last + q then burstsAux q t (cur ++ [(t, m)]) rest
    else cur :: burstsAux q t [(t, m)] rest

/-- Group a time-ordered arrival list into unbroken bursts. -/
def bursts (q : ℚ) : List (ℚ × Msg) → List (List (ℚ × Msg))
  | [] => []
  | (t, m) :: rest => burstsAux q t [(t, m)] rest

/-- The arrival time of the last message of a burst. -/
def burstLast (b : List (ℚ × Msg)) : ℚ := (b.getLastD (0, 0)).1

/-- The composite unit a burst produces: fired `q` after its last message,
by the timer armed at that last message, merging the burst's messages in
arrival order. -/
def burstEmit (q : ℚ) (b : List (ℚ × Msg)) : ℚ × ℚ × List Msg :=
  (burstLast b + q, burstLast b, b.map Prod.snd)

theorem burstLast_concat (l : List (ℚ × Msg)) (p : ℚ × Msg) :
    burstLast (l ++ [p]) = p.1 := by
  simp [burstLast, List.getLastD_concat]

/-- Invariant computation of the debounce run: starting mid-burst (entry
holding the current burst's messages, timer armed at its last arrival),
the run emits exactly one composite unit per burst. -/
theorem runDebounce_emitted_go (q slack : ℚ) (hs : 0 ≤ slack) :
    ∀ (rest : List (ℚ × Msg)) (last : ℚ) (cur : List (ℚ × Msg))
      (em : List (ℚ × ℚ × List Msg)), cur ≠ [] →
      burstLast cur = last →
      (runDebounce q slack
        { entry := some { msgs := cur.map Prod.snd, waitingSince := last },
          timer := some last, emitted := em } rest).emitted =
        em ++ (burstsAux q last cur rest).map (burstEmit q) := by
  intro rest
  induction rest with
  | nil =>
    intro last cur em hcur hlast
    have hq : ¬(q < q - slack) := by linarith
    have hm : ¬(cur.map Prod.snd = []) := by
      simpa using hcur
    simp only [runDebounce, fireTimer, add_sub_cancel_left, hq, if_false, hm, if_false]
    simp [burstsAux, burstEmit, hlast]
  | cons tm rest ih =>
    obtain ⟨t, m⟩ := tm
    intro last cur em hcur hlast
    by_cases hfire : last + q < t
    · have hle : ¬(t ≤ last + q) := by linarith
      have hq : ¬(q < q - slack) := by linarith
      have hm : ¬(cur.map Prod.snd = []) := by
        simpa using hcur
      have hstep : stepArrival q slack
          { entry := some { msgs := cur.map Prod.snd, waitingSince := last },
            timer := some last, emitted := em } t m =
          { entry := some { msgs := [m], waitingSince := t }, timer := some t,
            emitted := em ++ [(last + q, last, cur.map Prod.snd)] } := by
        simp [stepArrival, fireTimer, admitMessage, hfire, hq, hm]
      have hrec := ih t [(t, m)] (em ++ [(last + q, last, cur.map Prod.snd)])
        (by simp) rfl
      simp only [List.map_cons, List.map_nil] at hrec
      simp only [runDebounce, hstep]
      rw [hrec]
      simp only [burstsAux, hle, if_false, List.map_cons]
      rw [burstEmit, hlast]
      simp
    · have hle : t ≤ last + q := by linarith
      have hstep : stepArrival q slack
          { entry := some { msgs := cur.map Prod.snd, waitingSince := last },
            timer := some last, emitted := em } t m =
          { entry := some { msgs := (cur ++ [(t, m)]).map Prod.snd, waitingSince := t },
            timer := some t, emitted := em } := by
        simp [stepArrival, admitMessage, hfire]
      have hrec := ih t (cur ++ [(t, m)]) em (by simp) (burstLast_concat cur (t, m))
      simp only [runDebounce, hstep]
      rw [hrec]
      simp [burstsAux, hle]

/-- C3: debounce coalescing.  Concretely, with quiet duration 6 and slack
0.1, admitted messages M1 at t=0 and M2 at t=3 from the same key produce
exactly one composite unit, containing both messages in order, handed to
the downstream queue at t=9 (no earlier), by the timer armed at t=3 —
the timer armed for M1 at t=0 never performs a merge.  Generally, for
any quiet duration, nonnegative slack and time-ordered arrivals, the
emitted units are exactly one per unbroken burst (a burst extends while
each arrival lands within the quiet duration of the previous one), each
emitted a full quiet duration after the last admitted message of its
burst and merging exactly that burst's messages in order. -/
theorem debounce_coalescing_spec :
    (runDebounce 6 (1/10) initDebounce [(0, 1), (3, 2)]).emitted = [(9, 3, [1, 2])] ∧
    (∀ (q slack : ℚ) (arrivals : List (ℚ × Msg)), 0 ≤ slack →
      (runDebounce q slack initDebounce arrivals).emitted =
        (bursts q arrivals).map (burstEmit q)) := by
  have hgen : ∀ (q slack : ℚ), 0 ≤ slack → ∀ (arrivals : List (ℚ × Msg)),
      (runDebounce q slack initDebounce arrivals).emitted =
        (bursts q arrivals).map (burstEmit q) := by
    intro q slack hs arrivals
    cases arrivals with
    | nil => simp [runDebounce, initDebounce, bursts]
    | cons tm rest =>
      obtain ⟨t, m⟩ := tm
      have hstep : stepArrival q slack initDebounce t m =
          { entry := some { msgs := [(t, m)].map Prod.snd, waitingSince := t },
            timer := some t, emitted := [] } := by
        simp [stepArrival, initDebounce, admitMessage]
      have hrec := runDebounce_emitted_go q slack hs rest t [(t, m)] [] (by simp) rfl
      simp only [runDebounce, hstep]
      rw [hrec]
      simp [bursts]
  refine ⟨?_, fun q slack arrivals hs => hgen q slack hs arrivals⟩
  rw [hgen 6 (1/10) (by norm_num) [(0, 1), (3, 2)]]
  norm_num [bursts, burstsAux, burstEmit, burstLast]

/-- Witness for `debounce_coalescing_spec`: its general part instantiated
at quiet duration 6, slack 0.1 and the two-message burst. -/
theorem debounce_coalescing_spec_witness :
    (runDebounce 6 (1/10) initDebounce [(0, 1), (3, 2)]).emitted =
      (bursts 6 [(0, 1), (3, 2)]).map (burstEmit 6) :=
  debounce_coalescing_spec.2 6 (1/10) [(0, 1), (3, 2)] (by norm_num)

/-- C6 (evaluating the code at the failing input): one admitted message at
t=0, quiet duration 6, no further messages.  The timer fires at t=6
without having been re-armed and completes its handoff (the unit is
emitted), yet the key's entry is NOT removed from the wait-state map: it
survives holding an empty accumulated-messages list, because the
cleanup's `timer_task.done()` test (main.py line 716) is `False` while
the firing task is still executing its own `finally` block.  This
contradicts both halves of the claimed lifecycle invariant (non-empty
while present; removed after an un-re-armed handoff), and the code's own
cleanup comment (main.py line 712). -/
theorem wait_state_entry_not_removed :
    (runDebounce 6 (1/10) initDebounce [(0, 1)]).emitted = [(6, 0, [1])] ∧
    (runDebounce 6 (1/10) initDebounce [(0, 1)]).entry =
      some { msgs := [], waitingSince := 0 } := by
  norm_num [runDebounce, stepArrival, fireTimer, admitMessage, initDebounce]

/-- The wait-state map key `f"{chat_id}_{user_id}"` (main.py line 621). -/
def userKey (chatId userId : String) : String := chatId ++ "_" ++ userId

/-- The wait-state map `self.user_wait_states` (main.py line 76) restricted
to which messages accumulate under which key, embedded as an
insertion-ordered association list. -/
abbrev WaitMap := List (String × List Msg)

/-- The accumulation effect of `_enter_silent_wait` on the map for a given
key (main.py lines 631-661): append the message to the existing entry's
`accumulated_messages`, or create the entry with the message as sole
item. -/
def insertWaitMsg : WaitMap → String → Msg → WaitMap
  | [], key, m => [(key, [m])]
  | (k, l) :: rest, key, m =>
    if k = key then (k, l ++ [m]) :: rest else (k, l) :: insertWaitMsg rest key m

/-- `_enter_silent_wait` for an admitted message from `(chatId, userId)`. -/
def enterSilentWait (wm : WaitMap) (chatId userId : String) (m : Msg) : WaitMap :=
  insertWaitMsg wm (userKey chatId userId) m

/-- Run a sequence of admissions `(chat, user, message)` in order. -/
def runAdmissions : WaitMap → List (String × String × Msg) → WaitMap
  | wm, [] => wm
  | wm, (c, u, m) :: rest => runAdmissions (enterSilentWait wm c u m) rest

/-- The messages of an admission sequence whose derived key is `k`, in
order. -/
def msgsForKey (k : String) (ops : List (String × String × Msg)) : List Msg :=
  (ops.filter (fun o => decide (userKey o.1 o.2.1 = k))).map (fun o => o.2.2)

theorem msgsForKey_cons (k c u : String) (m : Msg) (rest : List (String × String × Msg)) :
    msgsForKey k ((c, u, m) :: rest) =
      if userKey c u = k then m :: msgsForKey k rest else msgsForKey k rest := by
  by_cases h : userKey c u = k <;> simp [msgsForKey, List.filter_cons, h]

theorem lookup_insertWaitMsg_self (wm : WaitMap) (key : String) (m : Msg) :
    (insertWaitMsg wm key m).lookup key = some ((wm.lookup key).getD [] ++ [m]) := by
  induction wm with
  | nil => simp [insertWaitMsg, List.lookup]
  | cons p rest ih =>
    obtain ⟨k, l⟩ := p
    by_cases h : k = key
    · subst h
      simp [insertWaitMsg, List.lookup]
    · have hb : (key == k) = false := beq_eq_false_iff_ne.mpr (Ne.symm h)
      simp only [insertWaitMsg, if_neg h, List.lookup, hb]
      exact ih

theorem lookup_insertWaitMsg_other (wm : WaitMap) (key k : String) (m : Msg)
    (h : k ≠ key) :
    (insertWaitMsg wm key m).lookup k = wm.lookup k := by
  have hb : (k == key) = false := beq_eq_false_iff_ne.mpr h
  induction wm with
  | nil => simp only [insertWaitMsg, List.lookup, hb]
  | cons p rest ih =>
    obtain ⟨k', l⟩ := p
    by_cases h' : k' = key
    · subst h'
      simp only [insertWaitMsg, if_pos rfl, List.lookup, hb]
    · simp only [insertWaitMsg, if_neg h']
      by_cases hk : k = k'
      · subst hk
        simp [List.lookup]
      · have hb' : (k == k') = false := beq_eq_false_iff_ne.mpr hk
        simp only [List.lookup, hb']
        exact ih

/-- Closed form of the accumulation: an entry holds the initial messages of
its key followed by exactly the admitted messages whose derived key
matches. -/
theorem runAdmissions_lookup_some :
    ∀ (ops : List (String × String × Msg)) (wm : WaitMap) (k : String) (l : List Msg),
      wm.lookup k = some l →
      (runAdmissions wm ops).lookup k = some (l ++ msgsForKey k ops) := by
  intro ops
  induction ops with
  | nil =>
    intro wm k l h
    simpa [runAdmissions, msgsForKey] using h
  | cons op rest ih =>
    obtain ⟨c, u, m⟩ := op
    intro wm k l h
    rw [msgsForKey_cons]
    by_cases hk : userKey c u = k
    · have hlook : (enterSilentWait wm c u m).lookup k = some (l ++ [m]) := by
        rw [enterSilentWait, hk] at *
        rw [lookup_insertWaitMsg_self, h]
        rfl
      rw [runAdmissions, ih (enterSilentWait wm c u m) k (l ++ [m]) hlook]
      simp [hk]
    · have hlook : (enterSilentWait wm c u m).lookup k = some l := by
        rw [enterSilentWait, lookup_insertWaitMsg_other wm _ k m (fun hh => hk hh.symm)]
        exact h
      rw [runAdmissions, ih (enterSilentWait wm c u m) k l hlook]
      simp [hk]

/-- Closed form from an absent key: the entry appears iff a matching
admission occurred, and then holds exactly the matching messages. -/
theorem runAdmissions_lookup_none :
    ∀ (ops : List (String × String × Msg)) (wm : WaitMap) (k : String),
      wm.lookup k = none →
      (runAdmissions wm ops).lookup k =
        (if msgsForKey k ops = [] then none else some (msgsForKey k ops)) := by
  intro ops
  induction ops with
  | nil =>
    intro wm k h
    simpa [runAdmissions, msgsForKey] using h
  | cons op rest ih =>
    obtain ⟨c, u, m⟩ := op
    intro wm k h
    rw [msgsForKey_cons]
    by_cases hk : userKey c u = k
    · have hlook : (enterSilentWait wm c u m).lookup k = some [m] := by
        rw [enterSilentWait, hk] at *
        rw [lookup_insertWaitMsg_self, h]
        rfl
      rw [runAdmissions, runAdmissions_lookup_some rest _ k [m] hlook]
      simp [hk]
    · have hlook : (enterSilentWait wm c u m).lookup k = none := by
        rw [enterSilentWait, lookup_insertWaitMsg_other wm _ k m (fun hh => hk hh.symm)]
        exact h
      rw [runAdmissions, ih (enterSilentWait wm c u m) k hlook]
      simp [hk]

/-- C7 counterexample: the distinct (chat, sender) pairs `("a_b", "c")` and
`("a", "b_c")` derive the same wait-state key `"a_b_c"`, so their
admitted messages accumulate under the same entry (and would be merged
into one composite unit). -/
theorem wait_key_collision_cex :
    (("a_b", "c") ≠ (("a", "b_c") : String × String)) ∧
    userKey "a_b" "c" = userKey "a" "b_c" ∧
    runAdmissions [] [("a_b", "c", 1), ("a", "b_c", 2)] = [("a_b_c", [1, 2])] := by
  refine ⟨by decide, by decide, by decide⟩

/-- C7 (amended): two (chat, sender) pairs accumulate into the same
wait-state entry only when their derived keys `chat ++ "_" ++ sender`
coincide — which distinct pairs can achieve when the identifiers contain
underscores; every entry holds exactly the messages admitted under its
own key, and within a single chat two different senders always derive
different keys, so their messages never accumulate together and never
merge into one composite unit. -/
theorem wait_key_isolation_amended :
    (∀ (c u1 u2 : String), userKey c u1 = userKey c u2 → u1 = u2) ∧
    (∀ (ops : List (String × String × Msg)) (k : String) (l : List Msg),
      (runAdmissions [] ops).lookup k = some l → l = msgsForKey k ops) := by
  constructor
  · intro c u1 u2 h
    have hd : (userKey c u1).data = (userKey c u2).data := by rw [h]
    simp only [userKey, String.data_append] at hd
    exact String.ext (List.append_cancel_left hd)
  · intro ops k l h
    have h0 : (List.lookup k ([] : WaitMap)) = none := rfl
    rw [runAdmissions_lookup_none ops [] k h0] at h
    by_cases he : msgsForKey k ops = []
    · rw [if_pos he] at h
      exact absurd h (by simp)
    · rw [if_neg he] at h
      exact (Option.some.injEq _ _ ▸ h).symm

/-- Witness for `wait_key_isolation_amended`: a single admission from
`("a", "b")` is accumulated under its own key `"a_b"` and is exactly the
message list of that key. -/
theorem wait_key_isolation_amended_witness :
    ([1] : List Msg) = msgsForKey (userKey "a" "b") [("a", "b", 1)] :=
  wait_key_isolation_amended.2 [("a", "b", 1)] (userKey "a" "b") [1] (by decide)

/-- Python `str.strip()` on `List Char`: drop whitespace from both ends. -/
def pyStrip (s : List Char) : List Char :=
  ((s.dropWhile Char.isWhitespace).reverse.dropWhile Char.isWhitespace).reverse

/-- A system-prompt cache entry (main.py lines 134-138). -/
structure CacheEntry where
  original : List Char
  summarized : List Char
  persona_id : String
deriving DecidableEq, Repr

/-- The cache `self.system_prompt_cache` (main.py line 79), embedded as an
insertion-ordered association list. -/
abbrev PromptCache := List (String × CacheEntry)

/-- Insert-or-overwrite with Python dict semantics. -/
def setCacheEntry : PromptCache → String → CacheEntry → PromptCache
  | [], key, e => [(key, e)]
  | (k, v) :: rest, key, e =>
    if k = key then (k, e) :: rest else (k, v) :: setCacheEntry rest key e

/-- Outcome of the summarization call inside `_summarize_system_prompt`:
the provider call (or anything in the `try`) raises, `json.loads` fails,
or a JSON object is parsed, in which case `field` is
`result_data.get("summarized_persona", "")`. -/
inductive SummarizeOutcome where
  | raised (e : String)
  | badJson
  | parsed (field : List Char)
deriving DecidableEq, Repr

/-- `_summarize_system_prompt` (main.py lines 147-199): with no provider
configured or found, or on a call exception or JSON parse failure, the
original text is returned unchanged (no retry — a single call is made);
a parsed `summarized_persona` field is accepted only when truthy and
longer than 10 characters once stripped, in which case its stripped form
is returned, and otherwise the original is returned. -/
def summarizeSystemPrompt (providerConfigured providerFound : Bool)
    (outcome : SummarizeOutcome) (original : List Char) : List Char :=
  if !providerConfigured then original
  else if !providerFound then original
  else
    match outcome with
    | .raised _ => original
    | .badJson => original
    | .parsed field =>
      if field ≠ [] ∧ 10 < (pyStrip field).length then pyStrip field else original

/-- The summarize-then-cache tail of
`_get_or_create_summarized_system_prompt` (main.py lines 126-141): empty
or short (stripped length < 50) prompts are returned unchanged with no
cache write; otherwise `_summarize_system_prompt` runs once and the
cache entry is written unconditionally — also when summarization fell
back to the original. -/
def summarizeAndCache (cache : PromptCache) (cacheKey personaId : String)
    (providerConfigured providerFound : Bool) (outcome : SummarizeOutcome)
    (original : List Char) : List Char × PromptCache :=
  if original = [] ∨ (pyStrip original).length < 50 then (original, cache)
  else
    let s := summarizeSystemPrompt providerConfigured providerFound outcome original
    (s, setCacheEntry cache cacheKey
      { original := original, summarized := s, persona_id := personaId })

/-- `_get_or_create_summarized_system_prompt` (main.py lines 103-145) for a
resolved conversation id and persona id: return the cached summary when
the stored original matches verbatim, otherwise fall through to the
summarize-and-cache tail. -/
def getOrCreateSummarizedPrompt (cache : PromptCache) (cid personaId : String)
    (providerConfigured providerFound : Bool) (outcome : SummarizeOutcome)
    (original : List Char) : List Char × PromptCache :=
  let cacheKey := cid ++ "_" ++ personaId
  match cache.lookup cacheKey with
  | some e =>
    if e.original = original then (e.summarized, cache)
    else summarizeAndCache cache cacheKey personaId providerConfigured providerFound
      outcome original
  | none =>
    summarizeAndCache cache cacheKey personaId providerConfigured providerFound
      outcome original

/-- A 60-character persona text (long enough to trigger summarization). -/
def longOriginal : List Char := List.replicate 60 'a'

/-- C9 counterexample: with a long persona text and a summarization call
whose output fails to parse as JSON, the original text is returned
unchanged (no retry) — but a cache entry IS written (main.py line 134
runs unconditionally after `_summarize_system_prompt` returns), storing
the original as its own summary; the claim that an entry is written only
when summarization succeeds is false. -/
theorem summary_cache_written_on_failure_cex :
    getOrCreateSummarizedPrompt [] "conv" "p" true true .badJson longOriginal =
      (longOriginal,
        [("conv_p",
          { original := longOriginal, summarized := longOriginal, persona_id := "p" })]) := by
  decide

/-- C9 (amended): for a long-enough persona text, when the summarization
output fails to parse, the call raises, or the summary is implausibly
short, `_summarize_system_prompt` returns the original text unchanged
with no retry, and the cache entry written stores the original as its
own summary (an entry is written after every summarization attempt, not
only on success); on success the stripped summary is returned and
cached; and a verbatim cache hit returns the stored summary without any
new summarization call. -/
theorem summary_fallback_amended (cid personaId : String) (original : List Char)
    (h1 : original ≠ []) (h2 : ¬((pyStrip original).length < 50)) :
    (∀ outcome, (outcome = .badJson ∨ (∃ e, outcome = .raised e) ∨
        (∃ f, outcome = .parsed f ∧ ¬(f ≠ [] ∧ 10 < (pyStrip f).length))) →
      getOrCreateSummarizedPrompt [] cid personaId true true outcome original =
        (original, [(cid ++ "_" ++ personaId,
          { original := original, summarized := original, persona_id := personaId })])) ∧
    (∀ f, f ≠ [] → 10 < (pyStrip f).length →
      getOrCreateSummarizedPrompt [] cid personaId true true (.parsed f) original =
        (pyStrip f, [(cid ++ "_" ++ personaId,
          { original := original, summarized := pyStrip f,
            persona_id := personaId })])) ∧
    (∀ (cache : PromptCache) (e : CacheEntry) (outcome : SummarizeOutcome),
      cache.lookup (cid ++ "_" ++ personaId) = some e → e.original = original →
      getOrCreateSummarizedPrompt cache cid personaId true true outcome original =
        (e.summarized, cache)) := by
  have hno : ¬(original = [] ∨ (pyStrip original).length < 50) := by
    push_neg
    exact ⟨h1, by omega⟩
  refine ⟨?_, ?_, ?_⟩
  · intro outcome houtcome
    have hsum : summarizeSystemPrompt true true outcome original = original := by
      rcases houtcome with h | ⟨e, h⟩ | ⟨f, h, hf⟩ <;> subst h <;>
        simp [summarizeSystemPrompt, *]
    simp [getOrCreateSummarizedPrompt, List.lookup, summarizeAndCache, hno, hsum,
      setCacheEntry]
  · intro f hf1 hf2
    have hsum : summarizeSystemPrompt true true (.parsed f) original = pyStrip f := by
      simp [summarizeSystemPrompt, hf1, hf2]
    simp [getOrCreateSummarizedPrompt, List.lookup, summarizeAndCache, hno, hsum,
      setCacheEntry]
  · intro cache e outcome hlook horig
    simp [getOrCreateSummarizedPrompt, hlook, horig]

/-- Witness for `summary_fallback_amended`: the 60-character persona with a
non-JSON summarization outcome falls back to the original and writes the
fallback cache entry. -/
theorem summary_fallback_amended_witness :
    getOrCreateSummarizedPrompt [] "conv" "p" true true .badJson longOriginal =
      (longOriginal, [("conv" ++ "_" ++ "p",
        { original := longOriginal, summarized := longOriginal, persona_id := "p" })]) :=
  (summary_fallback_amended "conv" "p" longOriginal (by decide) (by decide)).1
    .badJson (Or.inl rfl)

end Heartflow
